import Mathlib

/-!
Shallow embedding of the offline DNSSEC analysis engine of dnsviz
(src/dnsviz/analysis/offline.py, class OfflineDomainNameAnalysis), together
with theorems settling the frozen claims about it.

Conventions used throughout:
* DNS owner names are plain strings (`Name`).
* Record types are the inductive `RdType`, covering the rdtypes the analysed
  code dispatches on.
* Python dicts keyed by `(server, client)` pairs are association lists; Python
  sets are lists whose membership is what matters.
* Machine integers in the source (EDNS versions, flags, algorithm numbers,
  key tags) are `Int`/`Nat`; the source never overflows them.
* Python exceptions become `Except PyExc`.
-/

abbrev Name := String

/-- The rdtypes dispatched on by offline.py. -/
inductive RdType
  | A | AAAA | NS | SOA | CNAME | MX | TXT | DNSKEY | DS | DLV | NSEC | NSEC3 | DNAME
deriving DecidableEq, Repr

/-- Option-aware comparison with `self.dlv_name` (which may be Python `None`):
`query.qname in (self.name, self.dlv_name)` compares against `None` as false. -/
def matchesDlv : Option Name → Name → Bool
  | none, _ => false
  | some d, q => q == d

/-- One rdata of an answer RRset, carrying the fields read by
`_handle_dnskey_response` / `_handle_ds_response` (offline.py lines 123-136). -/
inductive AnsRecord
  | dnskeyRec (algorithm : Nat)
  | dsRec (algorithm : Nat) (digestType : Nat)
  | soaRec (serial : Nat)
  | otherRec
deriving DecidableEq, Repr

/-- An answer RRset as routed through `_process_response_answer_rrset`
(offline.py lines 138-146): the query's qname, the RRset's rdtype and its
records. -/
structure AnswerRRsetObs where
  queryQname : Name
  rdtype : RdType
  records : List AnsRecord
deriving DecidableEq, Repr

def recAlgIfDnskey : AnsRecord → Option Nat
  | .dnskeyRec alg => some alg
  | _ => none

def recAlgIfDs : AnsRecord → Option Nat
  | .dsRec alg _ => some alg
  | _ => none

/-- `self.dnssec_algorithms_in_dnskey`, as accumulated by
`_process_response_answer_rrset` + `_handle_dnskey_response`
(offline.py lines 123-125, 138-146): algorithms of DNSKEY records in answers
whose query qname is the analysed name or its DLV name. -/
def dnssec_algorithms_in_dnskey (name : Name) (dlvName : Option Name)
    (answers : List AnswerRRsetObs) : List Nat :=
  answers.foldl (fun acc a =>
    if (a.queryQname == name || matchesDlv dlvName a.queryQname) && a.rdtype == RdType.DNSKEY then
      acc ++ a.records.filterMap recAlgIfDnskey
    else acc) []

/-- `self.dnssec_algorithms_in_ds` (offline.py lines 127-136, 145-146). -/
def dnssec_algorithms_in_ds (name : Name) (dlvName : Option Name)
    (answers : List AnswerRRsetObs) : List Nat :=
  answers.foldl (fun acc a =>
    if (a.queryQname == name || matchesDlv dlvName a.queryQname) && a.rdtype == RdType.DS then
      acc ++ a.records.filterMap recAlgIfDs
    else acc) []

/-- `self.dnssec_algorithms_in_dlv` (offline.py lines 127-136, 145-146). -/
def dnssec_algorithms_in_dlv (name : Name) (dlvName : Option Name)
    (answers : List AnswerRRsetObs) : List Nat :=
  answers.foldl (fun acc a =>
    if (a.queryQname == name || matchesDlv dlvName a.queryQname) && a.rdtype == RdType.DLV then
      acc ++ a.records.filterMap recAlgIfDs
    else acc) []

/-- `_signed` (offline.py lines 109-111):
`bool(self.dnssec_algorithms_in_dnskey or self.dnssec_algorithms_in_ds or
self.dnssec_algorithms_in_dlv)`. -/
def _signed (inDnskey inDs inDlv : List Nat) : Bool :=
  !inDnskey.isEmpty || !inDs.isEmpty || !inDlv.isEmpty

/-! ## Delegation status (`_populate_ds_status`, offline.py lines 950-1153) -/

inductive DelegationStatus
  | secure | insecure | bogus | incomplete | lame
deriving DecidableEq, Repr

/-- A DS (or DLV) rdata, with the fields read by `_populate_ds_status`. -/
structure DSRdata where
  key_tag : Nat
  algorithm : Nat
  digest_type : Nat
deriving DecidableEq, Repr

/-- An element of `ds_rrset_answer_info`: an answer RRset for the DS/DLV query
(possibly a CNAME, hence the name/rdtype fields that line 1001 re-checks). -/
structure DSAnswerRRset where
  rrsetName : Name
  rrsetRdtype : RdType
  rdatas : List DSRdata
deriving DecidableEq, Repr

/-- `secure_path` as accumulated by offline.py lines 978, 999-1015: true iff
some answer RRset matching the queried name/rdtype holds a DS record whose
algorithm is supported and whose digest type is supported. -/
def secure_path (name : Name) (rdtype : RdType) (supported_algs supported_digest_algs : List Nat)
    (ds_rrset_answer_info : List DSAnswerRRset) : Bool :=
  ds_rrset_answer_info.any fun ri =>
    (ri.rrsetName == name && ri.rrsetRdtype == rdtype) &&
      ri.rdatas.any fun ds =>
        supported_algs.contains ds.algorithm && supported_digest_algs.contains ds.digest_type

/-- Key of a NegativeResponseInfo in the `nxdomain_status` / `nodata_status`
maps: its qname and rdtype. -/
structure NegKey where
  qname : Name
  rdtype : RdType
deriving DecidableEq, Repr

/-- The NSEC/NSEC3 scan of offline.py lines 1119-1124: the entries of
`nxdomain_status` and then `nodata_status` whose key has the queried name and
rdtype DS are searched for a status whose validation status is VALID.  Each
status list is abstracted to the list of its statuses' VALID flags. -/
def nsecValidForDs (name : Name) (nxdomain_status nodata_status : List (NegKey × List Bool)) : Bool :=
  (nxdomain_status ++ nodata_status).any fun p =>
    (p.1.qname == name && p.1.rdtype == RdType.DS) && p.2.any id

/-- Offline.py lines 1111-1126: resolution of `delegation_status[rdtype]` when
the per-witness loop left it `None`. -/
def resolveDelegationStatus (loopStatus : Option DelegationStatus) (hasDsAnswer : Bool)
    (securePathB parentSigned validNsec : Bool) : DelegationStatus :=
  match loopStatus with
  | some s => s
  | none =>
    if hasDsAnswer then
      if securePathB then .bogus else .insecure
    else if parentSigned then
      if validNsec then .insecure else .bogus
    else .insecure

/-- Zone-level server facts consumed by offline.py lines 1128-1141; the
`get_*_servers` calls live in the online module, so each is abstracted to the
truth of its non-emptiness check. -/
structure ZoneServerFacts where
  hasAuthOrDesignated : Bool
  hasResponsiveAuthOrDesignated : Bool
  hasValidAuthOrDesignated : Bool
  isAuthoritativeAnalysis : Bool
  hasAuthServersClients : Bool
deriving DecidableEq, Repr

/-- Offline.py lines 1128-1141: the elif-chain degrading an INSECURE status to
LAME when no server is designated/responsive/valid/authoritative. -/
def lameDegrade (z : ZoneServerFacts) (st : DelegationStatus) : DelegationStatus :=
  if !z.hasAuthOrDesignated then (if st == .insecure then .lame else st)
  else if !z.hasResponsiveAuthOrDesignated then (if st == .insecure then .lame else st)
  else if !z.hasValidAuthOrDesignated then (if st == .insecure then .lame else st)
  else if z.isAuthoritativeAnalysis && !z.hasAuthServersClients then
    (if st == .insecure then .lame else st)
  else st

/-- The disjunction of the four trigger conditions of offline.py lines
1128-1141 (each elif arm has the same body). -/
def lame_trigger (z : ZoneServerFacts) : Bool :=
  !z.hasAuthOrDesignated || !z.hasResponsiveAuthOrDesignated || !z.hasValidAuthOrDesignated ||
    (z.isAuthoritativeAnalysis && !z.hasAuthServersClients)

/-- A response as inspected by `_populate_name_status` and the NXDOMAIN
inconsistency scan: only its recursion-desired-and-available and
upward-referral verdicts matter there. -/
structure RespNS where
  recursion_desired_and_available : Bool
  is_upward_referral : Bool
deriving DecidableEq, Repr

/-- A `(server, client)` pair. -/
abbrev Witness := Nat × Nat

/-- A NegativeResponseInfo: qname, rdtype and its `servers_clients` map from
witness to responses. -/
structure NegInfo where
  qname : Name
  rdtype : RdType
  servers_clients : List (Witness × List RespNS)
deriving DecidableEq, Repr

/-- Offline.py lines 1143-1153: for rdtype DS, the first entry of the DS
query's `nxdomain_info` with matching qname and rdtype DS yields a
`NoNSInParent` error carrying that entry's witnesses (returned as the second
component), and an INSECURE status is degraded to INCOMPLETE. -/
def ds_nxdomain_adjust (rdtype : RdType) (name : Name) (nxdomain_info : List NegInfo)
    (st : DelegationStatus) : DelegationStatus × Option (List (Witness × List RespNS)) :=
  if rdtype == RdType.DS then
    match (nxdomain_info.filter fun x => x.qname == name && x.rdtype == RdType.DS).head? with
    | none => (st, none)
    | some info => ((if st == .insecure then .incomplete else st), some info.servers_clients)
  else (st, none)

/-- The tail of `_populate_ds_status` (offline.py lines 1111-1153): resolve a
still-`None` delegation status, degrade to LAME, then handle a DS NXDOMAIN.
The first component is the final `delegation_status[rdtype]`; the second is
the witness map of the appended `NoNSInParent` error, if any. -/
def populate_ds_status_resolved (loopStatus : Option DelegationStatus) (name : Name)
    (rdtype : RdType) (supported_algs supported_digest_algs : List Nat)
    (ds_rrset_answer_info : List DSAnswerRRset) (parentSigned : Bool)
    (nxdomain_status nodata_status : List (NegKey × List Bool)) (z : ZoneServerFacts)
    (nxdomain_info : List NegInfo) : DelegationStatus × Option (List (Witness × List RespNS)) :=
  let st0 := resolveDelegationStatus loopStatus (!ds_rrset_answer_info.isEmpty)
    (secure_path name rdtype supported_algs supported_digest_algs ds_rrset_answer_info)
    parentSigned (nsecValidForDs name nxdomain_status nodata_status)
  ds_nxdomain_adjust rdtype name nxdomain_info (lameDegrade z st0)

/-! ## RRSIG applicability (`_populate_rrsig_status`, offline.py lines 663-727) -/

/-- A DNSKEY rdata with the fields read by `_populate_rrsig_status`; the key
material is abstracted to a number (only rdata equality is used). -/
structure DNSKEYRdata where
  flags : Nat
  protocol : Nat
  algorithm : Nat
  key : Nat
deriving DecidableEq, Repr

/-- A DNSKEYMeta: deduplicated rdata plus its two derived key tags. -/
structure DNSKEYMeta where
  rdata : DNSKEYRdata
  key_tag : Nat
  key_tag_no_revoke : Nat
deriving DecidableEq, Repr

/-- An RRSIG with the fields `_populate_rrsig_status` dispatches on. -/
structure RRSIG where
  signer : Name
  algorithm : Nat
  key_tag : Nat
deriving DecidableEq, Repr

/-- The applicability test of offline.py lines 700-703 (negated `continue`
condition): protocol 3, key tag matching either derived tag, equal algorithm. -/
def rrsig_applicable (rrsig : RRSIG) (dnskey : DNSKEYMeta) : Bool :=
  dnskey.rdata.protocol == 3 &&
    (rrsig.key_tag == dnskey.key_tag || rrsig.key_tag == dnskey.key_tag_no_revoke) &&
    rrsig.algorithm == dnskey.rdata.algorithm

/-- The self-signature predicate of offline.py line 685: the covered RRset is
a DNSKEY RRset whose owner name is the RRSIG's signer. -/
def self_sig (rrset_rdtype : RdType) (rrset_name : Name) (rrsig : RRSIG) : Bool :=
  rrset_rdtype == RdType.DNSKEY && rrsig.signer == rrset_name

/-- One iteration of the DNSKEY loop of offline.py lines 690-705.  `acc` is
the pair (checked_keys, keys for which an RRSIGStatus was created), both in
encounter order. -/
def dnskey_set_step (selfSig : Bool) (rrset_rdatas : List DNSKEYRdata) (rrsig : RRSIG)
    (acc : List DNSKEYMeta × List DNSKEYMeta) (dnskey : DNSKEYMeta) :
    List DNSKEYMeta × List DNSKEYMeta :=
  if acc.1.contains dnskey then acc
  else if selfSig && !rrset_rdatas.contains dnskey.rdata then acc
  else if rrsig_applicable rrsig dnskey then (acc.1 ++ [dnskey], acc.2 ++ [dnskey])
  else (acc.1 ++ [dnskey], acc.2)

/-- The DNSKEYs for which offline.py line 704 constructs an `RRSIGStatus`
against the given RRSIG, iterating the signer's DNSKEY sets as in lines
687-705 (`checked_keys` threads across sets). -/
def rrsig_status_created_keys (selfSig : Bool) (rrset_rdatas : List DNSKEYRdata) (rrsig : RRSIG)
    (dnskey_sets : List (List DNSKEYMeta)) : List DNSKEYMeta :=
  (dnskey_sets.foldl (fun acc ks => ks.foldl (dnskey_set_step selfSig rrset_rdatas rrsig) acc)
    ([], [])).2

/-! ## Response error classification (`_populate_response_errors`, offline.py lines 408-557) -/

/-- The retry causes distinguished at offline.py lines 423-452 / 492-521;
`unclassified` stands for any other `Q.RETRY_CAUSE_*` constant (the bare
`else: pass` arms). -/
inductive RetryCause
  | network_error | formerr | timeout | other | rcode | unclassified
deriving DecidableEq, Repr

/-- A response with the fields `_populate_response_errors` reads.
`responsive_cause` is `response.history[response.responsive_cause_index].cause`
(only read when the index is present). -/
structure DNSResponse where
  query_edns : Int
  message_edns : Int
  effective_edns : Int
  responsive_cause_index : Option Nat
  responsive_cause : RetryCause
  query_edns_flags : Nat
  effective_edns_flags : Nat
  query_edns_max_udp_payload : Nat
  effective_edns_max_udp_payload : Nat
  query_tcp : Bool
  msg_size : Nat
  is_authoritative : Bool
  recursion_desired : Bool
  recursion_available : Bool
deriving DecidableEq, Repr

/-- Verdicts of the zone's `server_responsive_*` probes for the server and
client (offline.py lines 216-246; they scan the zone's own queries, which are
outside the single-response frame, so they enter as facts).  The per-flag
variants are given as the lists of flag values for which the probe is true. -/
structure ZoneOracle where
  server_responsive_with_edns : Bool
  server_responsive_valid_with_edns : Bool
  server_responsive_with_edns_flag : List Nat
  server_responsive_valid_with_edns_flag : List Nat
  zone_signed : Bool
deriving DecidableEq, Repr

/-- The errors constructed by `_populate_response_errors`; string-typed
payloads (errno names, rcode text) are dropped, the discriminating fields are
kept. -/
inductive RespErr
  | networkError (tcp intermittent : Bool)
  | formError (tcp : Bool) (msg_size : Nat) (intermittent : Bool)
  | timeoutError (tcp : Bool) (attempts : Nat) (intermittent : Bool)
  | unknownResponseError (tcp intermittent : Bool)
  | invalidRcode (tcp intermittent : Bool)
  | responseErrorWithEDNS (response_error : RespErr)
  | responseErrorWithEDNSFlag (response_error : RespErr) (flag : Nat)
  | ednsIgnored
  | unsupportedEDNSVersion (version : Int)
  | pmtuExceeded
  | notAuthoritative
  | recursionNotAvailable
deriving DecidableEq, Repr

/-- Modelled from the spec: the errors module is not under src/.  Per the
spec's error taxonomy and severity-routing rule, the transport errors
NetworkError, FormError, Timeout, UnknownResponseError and InvalidRcode are
the `InvalidResponseError` subclasses (routed to warnings at offline.py lines
540-541). -/
def isInvalidResponseError : RespErr → Bool
  | .networkError _ _ => true
  | .formError _ _ _ => true
  | .timeoutError _ _ _ => true
  | .unknownResponseError _ _ => true
  | .invalidRcode _ _ => true
  | _ => false

/-- The severity routing of offline.py lines 538-547: true iff the error goes
to the error list (rather than the warning list). -/
def errGroupIsErrors (e : RespErr) (qname_obj_present signedZone : Bool) : Bool :=
  if isInvalidResponseError e then false
  else if qname_obj_present && signedZone then true
  else false

/-- Offline.py lines 422-452: classify the EDNS-disabled retry cause.  Returns
`none` when `responsive_cause_index` is absent or the cause is unclassified
(the `else: pass` arm). -/
def classify_edns_err (z : ZoneOracle) (qname_obj_present : Bool) (r : DNSResponse) :
    Option RespErr :=
  match r.responsive_cause_index with
  | none => none
  | some idx =>
    match r.responsive_cause with
    | .network_error =>
      if qname_obj_present && z.server_responsive_with_edns then
        some (.networkError r.query_tcp true)
      else some (.responseErrorWithEDNS (.networkError r.query_tcp false))
    | .formerr =>
      if qname_obj_present && z.server_responsive_valid_with_edns then
        some (.formError r.query_tcp r.msg_size true)
      else some (.responseErrorWithEDNS (.formError r.query_tcp r.msg_size false))
    | .timeout =>
      if qname_obj_present && z.server_responsive_with_edns then
        some (.timeoutError r.query_tcp (idx + 1) true)
      else some (.responseErrorWithEDNS (.timeoutError r.query_tcp (idx + 1) false))
    | .other =>
      if qname_obj_present && z.server_responsive_valid_with_edns then
        some (.unknownResponseError r.query_tcp true)
      else some (.responseErrorWithEDNS (.unknownResponseError r.query_tcp false))
    | .rcode =>
      if qname_obj_present && z.server_responsive_valid_with_edns then
        some (.invalidRcode r.query_tcp true)
      else some (.responseErrorWithEDNS (.invalidRcode r.query_tcp false))
    | .unclassified => none

/-- Offline.py lines 491-521: classify the retry cause for one EDNS flag `f`. -/
def classify_edns_flag_err (z : ZoneOracle) (qname_obj_present : Bool) (r : DNSResponse)
    (f : Nat) : Option RespErr :=
  match r.responsive_cause_index with
  | none => none
  | some idx =>
    match r.responsive_cause with
    | .network_error =>
      if qname_obj_present && z.server_responsive_with_edns_flag.contains f then
        some (.networkError r.query_tcp true)
      else some (.responseErrorWithEDNSFlag (.networkError r.query_tcp false) f)
    | .formerr =>
      if qname_obj_present && z.server_responsive_valid_with_edns_flag.contains f then
        some (.formError r.query_tcp r.msg_size true)
      else some (.responseErrorWithEDNSFlag (.formError r.query_tcp r.msg_size false) f)
    | .timeout =>
      if qname_obj_present && z.server_responsive_with_edns_flag.contains f then
        some (.timeoutError r.query_tcp (idx + 1) true)
      else some (.responseErrorWithEDNSFlag (.timeoutError r.query_tcp (idx + 1) false) f)
    | .other =>
      if qname_obj_present && z.server_responsive_valid_with_edns_flag.contains f then
        some (.unknownResponseError r.query_tcp true)
      else some (.responseErrorWithEDNSFlag (.unknownResponseError r.query_tcp false) f)
    | .rcode =>
      if qname_obj_present && z.server_responsive_valid_with_edns_flag.contains f then
        some (.invalidRcode r.query_tcp true)
      else some (.responseErrorWithEDNSFlag (.invalidRcode r.query_tcp false) f)
    | .unclassified => none

/-- The flag loop of offline.py lines 483-532: iterate bit indices, and on the
first differing flag bit whose cause classifies, stop with that error
(`if err is not None: break`). -/
def edns_flag_loop (z : ZoneOracle) (qname_obj_present : Bool) (r : DNSResponse) :
    List Nat → Option RespErr
  | [] => none
  | i :: rest =>
    if (r.query_edns_flags &&& (1 <<< i)) != (r.effective_edns_flags &&& (1 <<< i)) then
      match classify_edns_flag_err z qname_obj_present r (1 <<< i) with
      | some e => some e
      | none => edns_flag_loop z qname_obj_present r rest
    else edns_flag_loop z qname_obj_present r rest

/-- The Python exceptions that the status-population path can raise. -/
inductive PyExc
  | unknownEdnsError | unknownEdnsFlagError | keyError | valueError
deriving DecidableEq, Repr

inductive AnalysisType
  | authoritative | recursiveType | cacheType
deriving DecidableEq, Repr

/-- The EDNS part of `_populate_response_errors` (offline.py lines 409-536):
the single `err` it settles on (if any), the version/PMTU warnings pushed on
the way, or the exception raised at line 468 / 536. -/
def edns_error_phase (z : ZoneOracle) (qname_obj_present : Bool) (r : DNSResponse) :
    Except PyExc (Option RespErr × List RespErr) :=
  if 0 ≤ r.query_edns then
    if r.message_edns < 0 then
      let err := if r.effective_edns < 0 then classify_edns_err z qname_obj_present r
                 else some .ednsIgnored
      if err.isNone && r.responsive_cause_index.isSome then .error .unknownEdnsError
      else .ok (err, [])
    else
      let w1 : List RespErr :=
        if r.message_edns != r.query_edns then [.unsupportedEDNSVersion r.query_edns] else []
      let w2 : List RespErr :=
        if r.effective_edns_max_udp_payload != r.query_edns_max_udp_payload then
          [.pmtuExceeded] else []
      if r.query_edns_flags != r.effective_edns_flags then
        let err := edns_flag_loop z qname_obj_present r (List.range 16).reverse
        if err.isNone && r.responsive_cause_index.isSome then .error .unknownEdnsFlagError
        else .ok (err, w1 ++ w2)
      else .ok (none, w1 ++ w2)
  else .ok (none, [])

/-- The authority checks of offline.py lines 551-557, yielding the errors
appended to the error list. -/
def authority_errors (qname_obj_present : Bool) (analysis_type : AnalysisType)
    (r : DNSResponse) : List RespErr :=
  if qname_obj_present then
    match analysis_type with
    | .authoritative => if !r.is_authoritative then [.notAuthoritative] else []
    | .recursiveType =>
      if r.recursion_desired && !r.recursion_available then [.recursionNotAvailable] else []
    | .cacheType => []
  else []

/-- `_populate_response_errors` (offline.py lines 408-557) for one
(qname_obj, response, server, client): returns the (warnings, errors)
contributed for this response, or the exception raised at line 468 / 536. -/
def _populate_response_errors (z : ZoneOracle) (qname_obj_present : Bool)
    (analysis_type : AnalysisType) (r : DNSResponse) :
    Except PyExc (List RespErr × List RespErr) :=
  match edns_error_phase z qname_obj_present r with
  | .error e => .error e
  | .ok (err, preWarnings) =>
    let routed : List RespErr × List RespErr :=
      match err with
      | none => (preWarnings, [])
      | some e =>
        if errGroupIsErrors e qname_obj_present z.zone_signed then (preWarnings, [e])
        else (preWarnings ++ [e], [])
    .ok (routed.1, routed.2 ++ authority_errors qname_obj_present analysis_type r)

/-- True for the EDNS-related error family (everything
`_populate_response_errors` can construct except the authority errors of
offline.py lines 551-557). -/
def isEdnsRelated : RespErr → Bool
  | .notAuthoritative => false
  | .recursionNotAvailable => false
  | _ => true

/-- The entry of `_populate_ds_status` (offline.py lines 950-976): the
rdtype guard (line 951), the parent guard (line 953), the DLV-name guard
(line 957), and the `answer_info` lookup whose KeyError is re-raised for
zones (lines 969-976).  Returns whether the body proceeds past the lookup,
or the exception raised. -/
def _populate_ds_status_entry (rdtype : RdType) (has_parent : Bool) (dlv_name : Option Name)
    (name : Name) (is_zone : Bool) (queryKeys : List (Name × RdType)) : Except PyExc Bool :=
  if !(rdtype == RdType.DS || rdtype == RdType.DLV) then .error .valueError
  else if !has_parent then .ok false
  else
    let nameOpt := if rdtype == RdType.DLV then dlv_name else some name
    match nameOpt with
    | none => .error .valueError
    | some n =>
      if queryKeys.contains (n, rdtype) then .ok true
      else if is_zone then .error .keyError
      else .ok false

/-! ## Name status and the NXDOMAIN inconsistency scan
(`_populate_name_status` lines 314-406, `_populate_nxdomain_status` lines 1308-1359) -/

/-- An answer RRset inside `query.answer_info`, with the fields the name
status pass and the inconsistency scan read. -/
structure AnswerInfo where
  rrsetName : Name
  rrsetRdtype : RdType
  servers_clients : List (Witness × List RespNS)
deriving DecidableEq, Repr

/-- A multi-query aggregate `self.queries[(qname, rdtype)]`.
`has_proper_referral` abstracts the nested response scan of offline.py lines
372-379 (`is_referral(self.name, rdtype, bailiwick, proper=True)` over the
per-parameter queries' responses). -/
structure QueryAgg where
  qname : Name
  rdtype : RdType
  answer_info : List AnswerInfo
  nodata_info : List NegInfo
  nxdomain_info : List NegInfo
  has_proper_referral : Bool
deriving DecidableEq, Repr

/-- `_rdtypes_for_analysis_level` (offline.py lines 183-193), with levels
RDTYPES_ALL = 0, RDTYPES_ALL_SAME_NAME = 1, RDTYPES_NS_TARGET = 2,
RDTYPES_SECURE_DELEGATION = 3, RDTYPES_DELEGATION = 4. -/
def _rdtypes_for_analysis_level (referral_rdtype : RdType) (level : Nat) :
    Option (List RdType) :=
  if level == 4 then some [referral_rdtype, RdType.NS]
  else if level == 3 then
    some [referral_rdtype, RdType.NS, RdType.DNSKEY, RdType.DS, RdType.DLV]
  else if level == 2 then
    some [referral_rdtype, RdType.NS, RdType.DNSKEY, RdType.DS, RdType.DLV, RdType.A, RdType.AAAA]
  else none

/-- The two per-query `continue`s shared by the status passes (e.g. offline.py
lines 334-338): skip a query when the level restricts to the own name and the
qname differs, or when a required-rdtype list is present and excludes it. -/
def queryLevelSkip (level : Nat) (selfName : Name) (dlvName : Option Name)
    (required : Option (List RdType)) (q : QueryAgg) : Bool :=
  (decide (0 < level) && !(q.qname == selfName || matchesDlv dlvName q.qname)) ||
    (match required with | none => false | some l => !l.contains q.rdtype)

/-- The names a NegativeResponseInfo of `nodata_info` adds to `yxdomain`
(offline.py lines 354-359): its qname, provided some response passes the
qname-or-recursion guard and is not an upward referral. -/
def negAddsYx (n : NegInfo) (qname : Name) : List Name :=
  if n.servers_clients.any (fun wc => wc.2.any (fun resp =>
      (n.qname == qname || resp.recursion_desired_and_available) && !resp.is_upward_referral)) then
    [n.qname]
  else []

/-- One query's contribution to `yxdomain` in `_populate_name_status`
(offline.py lines 346-381): answer RRset owner names, qnames of qualifying
NODATA entries (NXDOMAIN entries add only to `nxrrset`), then the referral
check that may add the analysed name itself. -/
def nameStatusQueryStep (level : Nat) (selfName : Name) (referral_rdtype : RdType)
    (acc : List Name) (q : QueryAgg) : List Name :=
  let acc := acc ++ q.answer_info.map (·.rrsetName) ++ q.nodata_info.flatMap (negAddsYx · q.qname)
  if level ≤ 4 then
    if selfName == q.qname && !acc.contains selfName then
      if q.rdtype == referral_rdtype || q.rdtype == RdType.NS then
        if q.has_proper_referral then acc ++ [selfName] else acc
      else acc
    else acc
  else acc

/-- The `yxdomain` set computed by `_populate_name_status` (offline.py lines
325-381); the CNAME-target pass of lines 383-395 touches only `yxrrset`. -/
def _populate_name_status_yxdomain (selfName : Name) (dlvName : Option Name)
    (referral_rdtype : RdType) (level : Nat) (queries : List QueryAgg) : List Name :=
  let required := _rdtypes_for_analysis_level referral_rdtype level
  queries.foldl (fun acc q =>
    if queryLevelSkip level selfName dlvName required q then acc
    else nameStatusQueryStep level selfName referral_rdtype acc q) []

inductive NameStatus
  | noerror | nxdomain | indeterminate
deriving DecidableEq, Repr

/-- The final `self.status` of `_populate_name_status` (offline.py lines
324, 397-406): NOERROR when the analysed name is in `yxdomain`, else NXDOMAIN
when some non-DS query has an NXDOMAIN entry at its own qname, else
INDETERMINATE. -/
def name_status_of (selfName : Name) (dlvName : Option Name) (referral_rdtype : RdType)
    (level : Nat) (queries : List QueryAgg) : NameStatus :=
  let yx := _populate_name_status_yxdomain selfName dlvName referral_rdtype level queries
  if yx.contains selfName then .noerror
  else if queries.any (fun q =>
      !(q.rdtype == RdType.DS) && q.nxdomain_info.any (fun n => n.qname == q.qname)) then
    .nxdomain
  else .indeterminate

/-- Key intersection of two `servers_clients` maps
(`set(a).intersection(b)` on offline.py lines 1342, 1352). -/
def sharedWitnesses (a b : List (Witness × List RespNS)) : List Witness :=
  (a.map Prod.fst).filter (fun w => (b.map Prod.fst).contains w)

/-- All responses recorded for a witness in a `servers_clients` map. -/
def lookupResponses (scs : List (Witness × List RespNS)) (w : Witness) : List RespNS :=
  scs.foldl (fun acc p => if p.1 == w then acc ++ p.2 else acc) []

/-- The witness/response payload given to both InconsistentNXDOMAIN errors
(offline.py lines 1346-1349, 1356-1359): for each shared witness, the
responses recorded on the NXDOMAIN side. -/
def attachFromNeg (neg : NegInfo) (shared : List Witness) : List (Witness × List RespNS) :=
  shared.map (fun w => (w, lookupResponses neg.servers_clients w))

/-- Identifies the positive or NODATA artifact onto whose warning list the
second InconsistentNXDOMAIN error is pushed. -/
inductive ArtifactRef
  | answerRef (qname : Name) (rdtype : RdType) (rrsetName : Name) (rrsetRdtype : RdType)
  | nodataRef (qname : Name) (rdtype : RdType) (negQname : Name) (negRdtype : RdType)
deriving DecidableEq, Repr

/-- One detected NXDOMAIN/NOERROR inconsistency: a pair of identical
InconsistentNXDOMAIN errors carrying `attached` is appended to the NXDOMAIN
entry's warning list and to the artifact's warning list. -/
structure ScanHit where
  artifact : ArtifactRef
  attached : List (Witness × List RespNS)
deriving DecidableEq, Repr

/-- The per-query2 body of the inconsistency scan (offline.py lines
1334-1359). -/
def scanQueryForInconsistency (neg : NegInfo) (required : Option (List RdType))
    (q2 : QueryAgg) : List ScanHit :=
  if q2.rdtype == RdType.DS || q2.rdtype == RdType.DLV then []
  else if (match required with | none => false | some l => !l.contains q2.rdtype) then []
  else
    ((q2.answer_info.filter (fun a => a.rrsetName == neg.qname)).filterMap (fun a =>
      let shared := sharedWitnesses a.servers_clients neg.servers_clients
      if shared.isEmpty then none
      else some ⟨.answerRef q2.qname q2.rdtype a.rrsetName a.rrsetRdtype, attachFromNeg neg shared⟩))
    ++ ((q2.nodata_info.filter (fun n2 => n2.qname == neg.qname)).filterMap (fun n2 =>
      let shared := sharedWitnesses n2.servers_clients neg.servers_clients
      if shared.isEmpty then none
      else some ⟨.nodataRef q2.qname q2.rdtype n2.qname n2.rdtype, attachFromNeg neg shared⟩))

/-- The NXDOMAIN/NOERROR inconsistency scan run after classifying one NXDOMAIN
NegativeResponseInfo (offline.py lines 1332-1359), guarded by
`neg_response_info.qname in self.yxdomain` and by the processed query's rdtype
not being DS/DLV. -/
def check_nxdomain_inconsistencies (yxdomain : List Name) (neg : NegInfo) (rdtype1 : RdType)
    (required : Option (List RdType)) (queries : List QueryAgg) : List ScanHit :=
  if yxdomain.contains neg.qname && !(rdtype1 == RdType.DS || rdtype1 == RdType.DLV) then
    queries.flatMap (scanQueryForInconsistency neg required)
  else []

/-! ## Component status colorer (`populate_response_component_status`,
offline.py lines 1432-1501, NegativeResponseInfo branch lines 1453-1499) -/

inductive RRStatus
  | secure | insecure | bogus | nonExistent
deriving DecidableEq, Repr

/-- A NegativeResponseInfo as seen by the colorer: its rdtype, the trust
graph's status for its node, the graph statuses of its accompanying SOA
RRset nodes, and for each of its NSEC statuses whether the NSEC set's node is
SECURE. -/
structure NegativeResponseNode where
  rdtype : RdType
  node_status : RRStatus
  soa_node_statuses : List RRStatus
  nsec_node_secure : List Bool
deriving DecidableEq, Repr

/-- The opt-out detection of offline.py lines 1478-1487: the node is INSECURE
and some NSEC status of the negative response sits on a SECURE node. -/
def opt_out_secure (n : NegativeResponseNode) : Bool :=
  n.node_status == .insecure && n.nsec_node_secure.any id

/-- The NegativeResponseInfo branch of `populate_response_component_status`
(offline.py lines 1453-1499).  First component: the component status recorded
for the negative response; second: the status propagated to every
accompanying SOA RRsetInfo (populated only in the DNSKEY arm, line 1475-1476). -/
def negative_response_component_status (n : NegativeResponseNode) : RRStatus × Option RRStatus :=
  let status := n.node_status
  let stepOne : RRStatus × Option RRStatus :=
    if n.rdtype == RdType.DS then
      ((if status == .insecure then RRStatus.secure else status), none)
    else if n.rdtype == RdType.DNSKEY then
      let c := if status == .secure then RRStatus.bogus else status
      (c, some c)
    else (status, none)
  let comp :=
    if status == .secure || opt_out_secure n then
      if n.soa_node_statuses.contains RRStatus.secure then stepOne.1 else RRStatus.bogus
    else stepOne.1
  (comp, stepOne.2)

/-! ## The name-status walker (`populate_status`, offline.py lines 248-312)

The model below is the per-NA mutation performed by one `populate_status`
call: the guards of lines 253-263 and the sequence of `_populate_*` passes
each of which overwrites its status maps with values computed from the NA's
immutable observation record and the level.  Recursion into dependency NAs
(lines 277-297) is separate calls on their states; a repeated top-level call
(`trace = []`, hence `in_trace = false`) returns at line 258 before reaching
them.  The model instance has no DLV parent.  Map payloads that other
sections embed in full are abstracted here to their key structure. -/

/-- The immutable observation record of one NA, holding what the status
passes read. -/
structure NAInputs where
  selfName : Name
  dlvName : Option Name
  stub : Bool
  is_zone : Bool
  has_parent : Bool
  referral_rdtype : RdType
  queries : List QueryAgg
  supported_algs : List Nat
  supported_digest_algs : List Nat
  ds_answer_info : List DSAnswerRRset
  parent_signed : Bool
  loop_delegation_status : Option DelegationStatus
  nxdomain_nsec_valid : List (NegKey × List Bool)
  nodata_nsec_valid : List (NegKey × List Bool)
  server_facts : ZoneServerFacts
deriving DecidableEq, Repr

/-- The mutable status maps of an NA (offline.py lines 79-107), each `None`
until populated.  `rrsig_status`, `nodata_status` and `nxdomain_status` are
abstracted to their key sets; `delegation_status` to its rdtype-keyed
entries, whose values are themselves optional because `_populate_ds_status`
first stores `None` (line 967) and leaves it there when it returns early. -/
structure NAState where
  inputs : NAInputs
  status : Option NameStatus
  yxdomain : Option (List Name)
  rrsig_status : Option (List (Name × RdType))
  nodata_status : Option (List NegKey)
  nxdomain_status : Option (List NegKey)
  delegation_status : Option (List (RdType × Option DelegationStatus))
deriving DecidableEq, Repr

/-- The keys of `self.rrsig_status` after `_populate_rrsig_status_all`
(offline.py lines 775-815): one entry per answer RRset of each query passing
the level filters. -/
def rrsigStatusKeysForLevel (i : NAInputs) (level : Nat) : List (Name × RdType) :=
  let required := _rdtypes_for_analysis_level i.referral_rdtype level
  i.queries.foldl (fun acc q =>
    if queryLevelSkip level i.selfName i.dlvName required q then acc
    else acc ++ q.answer_info.map (fun a => (a.rrsetName, a.rrsetRdtype))) []

/-- The keys of `self.nodata_status` / `self.nxdomain_status` after
`_populate_nodata_status` / `_populate_nxdomain_status` (offline.py lines
1308-1383): the negative response infos of each query passing the level
filters. -/
def negKeysForLevel (i : NAInputs) (level : Nat) (proj : QueryAgg → List NegInfo) : List NegKey :=
  let required := _rdtypes_for_analysis_level i.referral_rdtype level
  i.queries.foldl (fun acc q =>
    if queryLevelSkip level i.selfName i.dlvName required q then acc
    else acc ++ (proj q).map (fun n => ⟨n.qname, n.rdtype⟩)) []

/-- The NXDOMAIN entries of the NA's own DS query slot
(`self.queries[(name, DS)].nxdomain_info`, offline.py line 1145). -/
def dsQueryNxdomainInfo (i : NAInputs) : List NegInfo :=
  (i.queries.filter (fun q => q.qname == i.selfName && q.rdtype == RdType.DS)).foldl
    (fun acc q => acc ++ q.nxdomain_info) []

/-- The DS entry of `delegation_status` computed by
`_populate_delegation_status` → `_populate_ds_status` for this NA. -/
def delegationForState (i : NAInputs) : DelegationStatus :=
  (populate_ds_status_resolved i.loop_delegation_status i.selfName RdType.DS
    i.supported_algs i.supported_digest_algs i.ds_answer_info i.parent_signed
    i.nxdomain_nsec_valid i.nodata_nsec_valid i.server_facts (dsQueryNxdomainInfo i)).1

/-- Whether `self.queries` holds the `(self.name, DS)` entry whose lookup at
offline.py lines 969-976 re-raises KeyError for zones. -/
def hasDsQuery (i : NAInputs) : Bool :=
  i.queries.any (fun q => q.qname == i.selfName && q.rdtype == RdType.DS)

/-- The status passes of `populate_status` up to the delegation pass
(offline.py lines 300-306): each overwrites its map with values computed from
the immutable observation record and the level. -/
def populate_status_passes (level : Nat) (s : NAState) : NAState :=
  { s with
    status := some (name_status_of s.inputs.selfName s.inputs.dlvName
      s.inputs.referral_rdtype level s.inputs.queries),
    yxdomain := some (_populate_name_status_yxdomain s.inputs.selfName s.inputs.dlvName
      s.inputs.referral_rdtype level s.inputs.queries),
    rrsig_status := some (rrsigStatusKeysForLevel s.inputs level),
    nodata_status := some (negKeysForLevel s.inputs level (·.nodata_info)),
    nxdomain_status := some (negKeysForLevel s.inputs level (·.nxdomain_info)) }

/-- One `populate_status` call on one NA (offline.py lines 248-312).
`in_trace` is `self in trace` (line 253: only `_populate_name_status` runs,
then return); line 258 returns unchanged when `rrsig_status` is already set;
line 263 returns unchanged for stubs.  Otherwise every status pass runs, and
the delegation pass follows `_populate_delegation_status` →
`_populate_ds_status`'s entry (lines 937-976): with no parent the delegation
map stays empty; with a parent and no (name, DS) query entry it re-raises
KeyError for a zone (the Python object is left partially mutated by the
passes already run; the model reports just the exception) and stores a `None`
DS entry for a non-zone; with the query entry present the DS entry is the
resolved status of lines 1111-1153. -/
def populate_status (in_trace is_dlv : Bool) (level : Nat) (s : NAState) :
    Except PyExc NAState :=
  if in_trace then
    .ok { s with
      status := some (name_status_of s.inputs.selfName s.inputs.dlvName
        s.inputs.referral_rdtype level s.inputs.queries),
      yxdomain := some (_populate_name_status_yxdomain s.inputs.selfName s.inputs.dlvName
        s.inputs.referral_rdtype level s.inputs.queries) }
  else if s.rrsig_status.isSome then .ok s
  else if s.inputs.stub then .ok s
  else
    if level ≤ 3 && !is_dlv then
      if s.inputs.has_parent then
        if hasDsQuery s.inputs then
          .ok { populate_status_passes level s with
            delegation_status := some [(RdType.DS, some (delegationForState s.inputs))] }
        else if s.inputs.is_zone then .error PyExc.keyError
        else
          .ok { populate_status_passes level s with
            delegation_status := some [(RdType.DS, none)] }
      else .ok { populate_status_passes level s with delegation_status := some [] }
    else .ok (populate_status_passes level s)

/-- The per-key property of claim C2: applicability per offline.py lines
700-703 plus the self-signature membership requirement of lines 695-698. -/
def rrsigCandidateSound (selfSig : Bool) (rrset_rdatas : List DNSKEYRdata) (rrsig : RRSIG)
    (k : DNSKEYMeta) : Prop :=
  k.rdata.protocol = 3 ∧ rrsig.algorithm = k.rdata.algorithm ∧
    (rrsig.key_tag = k.key_tag ∨ rrsig.key_tag = k.key_tag_no_revoke) ∧
    (selfSig = true → k.rdata ∈ rrset_rdatas)

/-- A concrete unpopulated zone NA state (zone with a parent whose DS query
was made but returned nothing), used to exercise `populate_status` re-entry;
the DS query entry keeps the lines-969-974 KeyError out of the picture. -/
def naExample : NAState :=
  ⟨⟨"example.", none, false, true, true, RdType.NS,
    [⟨"example.", RdType.DS, [], [], [], false⟩], [], [], [], false, none, [], [],
    ⟨true, true, true, false, true⟩⟩, none, none, none, none, none, none⟩

/-- A concrete NA state whose `rrsig_status` is already set, as after a
completed `populate_status` run. -/
def naExamplePopulated : NAState :=
  { naExample with
    status := some NameStatus.indeterminate,
    yxdomain := some [],
    rrsig_status := some [],
    nodata_status := some [],
    nxdomain_status := some [],
    delegation_status := some [(RdType.DS, some DelegationStatus.insecure)] }

/-! ## Theorems -/

/-- Claim C1: in `_populate_ds_status` for rdtype DS with the parent present,
when the per-witness loop has not set the delegation status, the resolution of
offline.py lines 1111-1126 yields: BOGUS if a DS answer was observed and
`secure_path` holds; INSECURE if a DS answer was observed and `secure_path`
fails (no DS record has both a supported algorithm and a supported digest
type); with no DS answer, BOGUS when the parent is signed unless some
NSEC/NSEC3 status for the DS query at the name is VALID (then INSECURE), and
INSECURE when the parent is unsigned. -/
theorem c1_ds_delegation_resolution (name : Name) (rdtype : RdType) (sa sd : List Nat)
    (dsInfo : List DSAnswerRRset) (parentSigned : Bool) (nx nd : List (NegKey × List Bool)) :
    (dsInfo ≠ [] →
      resolveDelegationStatus none (!dsInfo.isEmpty)
          (secure_path name rdtype sa sd dsInfo) parentSigned (nsecValidForDs name nx nd) =
        (if secure_path name rdtype sa sd dsInfo then DelegationStatus.bogus
         else DelegationStatus.insecure)) ∧
    (dsInfo = [] → parentSigned = true →
      resolveDelegationStatus none (!dsInfo.isEmpty)
          (secure_path name rdtype sa sd dsInfo) parentSigned (nsecValidForDs name nx nd) =
        (if nsecValidForDs name nx nd then DelegationStatus.insecure
         else DelegationStatus.bogus)) ∧
    (dsInfo = [] → parentSigned = false →
      resolveDelegationStatus none (!dsInfo.isEmpty)
          (secure_path name rdtype sa sd dsInfo) parentSigned (nsecValidForDs name nx nd) =
        DelegationStatus.insecure) ∧
    (secure_path name rdtype sa sd dsInfo = true ↔
      ∃ ri ∈ dsInfo, ri.rrsetName = name ∧ ri.rrsetRdtype = rdtype ∧
        ∃ ds ∈ ri.rdatas, ds.algorithm ∈ sa ∧ ds.digest_type ∈ sd) ∧
    (nsecValidForDs name nx nd = true ↔
      ∃ p ∈ nx ++ nd, p.1.qname = name ∧ p.1.rdtype = RdType.DS ∧ ∃ v ∈ p.2, v = true) := by
  refine ⟨?_, ?_, ?_, ?_, ?_⟩
  · intro h
    have hne : dsInfo.isEmpty = false := by
      cases dsInfo with
      | nil => exact absurd rfl h
      | cons a l => rfl
    simp [resolveDelegationStatus, hne]
  · intro h hp
    subst h hp
    simp [resolveDelegationStatus]
  · intro h hp
    subst h hp
    simp [resolveDelegationStatus]
  · simp only [secure_path, List.any_eq_true, Bool.and_eq_true, beq_iff_eq,
      List.contains, List.elem_eq_mem, decide_eq_true_eq]
    constructor
    · rintro ⟨ri, hri, ⟨hn, ht⟩, ds, hds, ha, hd⟩
      exact ⟨ri, hri, hn, ht, ds, hds, ha, hd⟩
    · rintro ⟨ri, hri, hn, ht, ds, hds, ha, hd⟩
      exact ⟨ri, hri, ⟨hn, ht⟩, ds, hds, ha, hd⟩
  · simp only [nsecValidForDs, List.any_eq_true, Bool.and_eq_true, beq_iff_eq, id_eq]
    constructor
    · rintro ⟨p, hp, ⟨hq, ht⟩, v, hv, hvt⟩
      exact ⟨p, hp, hq, ht, v, hv, hvt⟩
    · rintro ⟨p, hp, hq, ht, v, hv, hvt⟩
      exact ⟨p, hp, ⟨hq, ht⟩, v, hv, hvt⟩

/-- Witness for C1 at a concrete DS answer with a supported algorithm and
digest type. -/
theorem c1_ds_delegation_resolution_witness :
    ([⟨"example.", RdType.DS, [⟨1234, 8, 2⟩]⟩] : List DSAnswerRRset) ≠ [] ∧
    resolveDelegationStatus none
        (!([⟨"example.", RdType.DS, [⟨1234, 8, 2⟩]⟩] : List DSAnswerRRset).isEmpty)
        (secure_path "example." RdType.DS [8] [2] [⟨"example.", RdType.DS, [⟨1234, 8, 2⟩]⟩])
        true (nsecValidForDs "example." [] []) =
      DelegationStatus.bogus :=
  ⟨by decide,
    ((c1_ds_delegation_resolution "example." RdType.DS [8] [2]
        [⟨"example.", RdType.DS, [⟨1234, 8, 2⟩]⟩] true [] []).1 (by decide)).trans (by decide)⟩

/-- Claim C6 counterexample: a DS NXDOMAIN entry exists (the NoNSInParent
error is appended, carrying its witnesses), yet the resolved delegation
status is BOGUS, not INCOMPLETE, because the status entering lines 1143-1153
was not INSECURE. -/
theorem c6_incomplete_counterexample :
    populate_ds_status_resolved none "example." RdType.DS [8] [2]
        [⟨"example.", RdType.DS, [⟨1234, 8, 2⟩]⟩] true [] []
        ⟨true, true, true, false, true⟩
        [⟨"example.", RdType.DS, [((1, 1), [⟨false, false⟩])]⟩] =
      (DelegationStatus.bogus, some [((1, 1), [⟨false, false⟩])]) := by decide

/-- Claim C6 as amended: for rdtype DS with a matching NXDOMAIN entry, the
NoNSInParent error is appended carrying that entry's witnesses, and the
status is set to INCOMPLETE exactly when it was INSECURE at that point;
for rdtype DLV lines 1143-1153 do nothing. -/
theorem c6_ds_nxdomain_adjust (name : Name) (infos : List NegInfo) (st : DelegationStatus)
    (info : NegInfo)
    (h : (infos.filter fun x => x.qname == name && x.rdtype == RdType.DS).head? = some info) :
    ds_nxdomain_adjust RdType.DS name infos st =
      ((if st == DelegationStatus.insecure then DelegationStatus.incomplete else st),
        some info.servers_clients) ∧
    ds_nxdomain_adjust RdType.DLV name infos st = (st, none) := by
  constructor
  · simp [ds_nxdomain_adjust, h]
  · simp [ds_nxdomain_adjust]

/-- Witness for C6's amended statement at a concrete matching NXDOMAIN entry
with an INSECURE incoming status. -/
theorem c6_ds_nxdomain_adjust_witness :
    (([⟨"example.", RdType.DS, [((1, 1), [⟨false, false⟩])]⟩] : List NegInfo).filter
        fun x => x.qname == "example." && x.rdtype == RdType.DS).head? =
      some ⟨"example.", RdType.DS, [((1, 1), [⟨false, false⟩])]⟩ ∧
    ds_nxdomain_adjust RdType.DS "example."
        [⟨"example.", RdType.DS, [((1, 1), [⟨false, false⟩])]⟩] DelegationStatus.insecure =
      ((if DelegationStatus.insecure == DelegationStatus.insecure then
          DelegationStatus.incomplete else DelegationStatus.insecure),
        some [((1, 1), [⟨false, false⟩])]) :=
  ⟨by decide,
    (c6_ds_nxdomain_adjust "example." [⟨"example.", RdType.DS, [((1, 1), [⟨false, false⟩])]⟩]
      DelegationStatus.insecure ⟨"example.", RdType.DS, [((1, 1), [⟨false, false⟩])]⟩
      (by decide)).1⟩

/-- Claim C7 counterexample: with no authoritative or designated servers at
all (every server fact false), a BOGUS delegation status stays BOGUS; offline
lines 1128-1141 degrade to LAME only from INSECURE, so the claim's
unconditional degradation fails. -/
theorem c7_lame_counterexample :
    lame_trigger ⟨false, false, false, false, false⟩ = true ∧
    populate_ds_status_resolved none "example." RdType.DS [8] [2]
        [⟨"example.", RdType.DS, [⟨1234, 8, 2⟩]⟩] true [] []
        ⟨false, false, false, false, false⟩ [] =
      (DelegationStatus.bogus, none) := by decide

/-- Claim C7 as amended: when any of the four no-server conditions of offline
lines 1128-1141 triggers, an INSECURE status is degraded to LAME; any other
status is left unchanged, and with no trigger the status is unchanged. -/
theorem c7_lame_degrade (z : ZoneServerFacts) (st : DelegationStatus) :
    (lame_trigger z = true → st = DelegationStatus.insecure →
      lameDegrade z st = DelegationStatus.lame) ∧
    (st ≠ DelegationStatus.insecure → lameDegrade z st = st) ∧
    (lame_trigger z = false → lameDegrade z st = st) := by
  obtain ⟨a, b, c, d, e⟩ := z
  cases a <;> cases b <;> cases c <;> cases d <;> cases e <;> cases st <;> decide

/-- Witness for C7's amended statement: unresponsive servers degrade an
INSECURE delegation to LAME. -/
theorem c7_lame_degrade_witness :
    lame_trigger ⟨true, false, true, false, true⟩ = true ∧
    lameDegrade ⟨true, false, true, false, true⟩ DelegationStatus.insecure =
      DelegationStatus.lame :=
  ⟨by decide,
    (c7_lame_degrade ⟨true, false, true, false, true⟩ DelegationStatus.insecure).1
      (by decide) (by decide)⟩

/-- Claim C9: in `populate_response_component_status`, a DNSKEY negative
response on a SECURE node is downgraded to BOGUS and that chosen status is
propagated to its SOA RRsetInfos; and any negative response whose node is
SECURE or opt-out secure with no SECURE accompanying SOA node ends BOGUS. -/
theorem c9_negative_response_component (n : NegativeResponseNode) :
    (n.rdtype = RdType.DNSKEY → n.node_status = RRStatus.secure →
      negative_response_component_status n = (RRStatus.bogus, some RRStatus.bogus)) ∧
    ((n.node_status = RRStatus.secure ∨ opt_out_secure n = true) →
      n.soa_node_statuses.contains RRStatus.secure = false →
      (negative_response_component_status n).1 = RRStatus.bogus) := by
  constructor
  · intro h1 h2
    simp [negative_response_component_status, opt_out_secure, h1, h2, ite_self]
  · intro h hsoa
    have hm : RRStatus.secure ∉ n.soa_node_statuses := by
      intro hmem
      have := List.elem_eq_true_of_mem hmem
      rw [show n.soa_node_statuses.elem RRStatus.secure =
        n.soa_node_statuses.contains RRStatus.secure from rfl, hsoa] at this
      exact Bool.false_ne_true this
    rcases h with h | h
    · simp [negative_response_component_status, h, hm]
    · have hn : n.node_status = RRStatus.insecure := by
        have := h
        unfold opt_out_secure at this
        rcases Bool.and_eq_true _ _ |>.mp this with ⟨h1, _⟩
        exact beq_iff_eq.mp h1
      simp [negative_response_component_status, h, hn, hm]

/-- Witness for C9 at a concrete DNSKEY negative response on a SECURE node
with one (non-secure) SOA node. -/
theorem c9_negative_response_component_witness :
    negative_response_component_status ⟨RdType.DNSKEY, RRStatus.secure, [RRStatus.insecure], []⟩ =
      (RRStatus.bogus, some RRStatus.bogus) :=
  (c9_negative_response_component ⟨RdType.DNSKEY, RRStatus.secure, [RRStatus.insecure], []⟩).1
    rfl rfl

/-- Claim C10: the `signed` predicate holds iff the union of the algorithm
sets observed in DNSKEY, DS and DLV answers is non-empty, and for a
non-InvalidResponseError it alone decides routing to the error list versus
the warning list (offline.py lines 109-111, 538-547). -/
theorem c10_signed_routing (name : Name) (dlvName : Option Name)
    (answers : List AnswerRRsetObs) (e : RespErr)
    (he : isInvalidResponseError e = false) :
    (_signed (dnssec_algorithms_in_dnskey name dlvName answers)
        (dnssec_algorithms_in_ds name dlvName answers)
        (dnssec_algorithms_in_dlv name dlvName answers) = true ↔
      dnssec_algorithms_in_dnskey name dlvName answers ++
          dnssec_algorithms_in_ds name dlvName answers ++
          dnssec_algorithms_in_dlv name dlvName answers ≠ []) ∧
    (errGroupIsErrors e true
        (_signed (dnssec_algorithms_in_dnskey name dlvName answers)
          (dnssec_algorithms_in_ds name dlvName answers)
          (dnssec_algorithms_in_dlv name dlvName answers)) =
      _signed (dnssec_algorithms_in_dnskey name dlvName answers)
        (dnssec_algorithms_in_ds name dlvName answers)
        (dnssec_algorithms_in_dlv name dlvName answers)) := by
  constructor
  · simp only [_signed, Bool.or_eq_true, Bool.not_eq_true', List.isEmpty_eq_false,
      ne_eq, List.append_eq_nil]
    tauto
  · cases hs : _signed (dnssec_algorithms_in_dnskey name dlvName answers)
        (dnssec_algorithms_in_ds name dlvName answers)
        (dnssec_algorithms_in_dlv name dlvName answers) <;>
      simp [errGroupIsErrors, he]

/-- Witness for C10 at an EDNSIgnored error and one DNSKEY answer. -/
theorem c10_signed_routing_witness :
    isInvalidResponseError RespErr.ednsIgnored = false ∧
    errGroupIsErrors RespErr.ednsIgnored true
        (_signed (dnssec_algorithms_in_dnskey "example." none
            [⟨"example.", RdType.DNSKEY, [AnsRecord.dnskeyRec 8]⟩])
          (dnssec_algorithms_in_ds "example." none
            [⟨"example.", RdType.DNSKEY, [AnsRecord.dnskeyRec 8]⟩])
          (dnssec_algorithms_in_dlv "example." none
            [⟨"example.", RdType.DNSKEY, [AnsRecord.dnskeyRec 8]⟩])) =
      _signed (dnssec_algorithms_in_dnskey "example." none
          [⟨"example.", RdType.DNSKEY, [AnsRecord.dnskeyRec 8]⟩])
        (dnssec_algorithms_in_ds "example." none
          [⟨"example.", RdType.DNSKEY, [AnsRecord.dnskeyRec 8]⟩])
        (dnssec_algorithms_in_dlv "example." none
          [⟨"example.", RdType.DNSKEY, [AnsRecord.dnskeyRec 8]⟩]) :=
  ⟨by decide,
    (c10_signed_routing "example." none
      [⟨"example.", RdType.DNSKEY, [AnsRecord.dnskeyRec 8]⟩] RespErr.ednsIgnored
      (by decide)).2⟩

/-- One step of the DNSKEY loop only appends keys satisfying the claim-C2
property to the created list. -/
theorem dnskey_set_step_sound (selfSig : Bool) (rds : List DNSKEYRdata) (rrsig : RRSIG)
    (acc : List DNSKEYMeta × List DNSKEYMeta) (d : DNSKEYMeta)
    (hacc : ∀ k ∈ acc.2, rrsigCandidateSound selfSig rds rrsig k) :
    ∀ k ∈ (dnskey_set_step selfSig rds rrsig acc d).2, rrsigCandidateSound selfSig rds rrsig k := by
  intro k hk
  unfold dnskey_set_step at hk
  split at hk
  · exact hacc k hk
  · split at hk
    · exact hacc k hk
    · rename_i hskip
      split at hk
      · rename_i happ
        rcases List.mem_append.mp hk with h | h
        · exact hacc k h
        · have hkd : k = d := by simpa using h
          subst hkd
          simp only [rrsig_applicable, Bool.and_eq_true, beq_iff_eq, Bool.or_eq_true] at happ
          obtain ⟨⟨hprot, htag⟩, halg⟩ := happ
          refine ⟨hprot, halg, htag, ?_⟩
          intro hss
          by_contra hmem
          apply hskip
          have hcf : rds.contains k.rdata = false := by
            simp only [List.contains, List.elem_eq_mem]
            exact decide_eq_false hmem
          simp only [hss, Bool.true_and, hcf, Bool.not_false]
      · exact hacc k hk

/-- Folding the DNSKEY loop over one DNSKEY set preserves the claim-C2
property of the created list. -/
theorem dnskey_set_foldl_sound (selfSig : Bool) (rds : List DNSKEYRdata) (rrsig : RRSIG)
    (ks : List DNSKEYMeta) :
    ∀ acc : List DNSKEYMeta × List DNSKEYMeta,
      (∀ k ∈ acc.2, rrsigCandidateSound selfSig rds rrsig k) →
      ∀ k ∈ (ks.foldl (dnskey_set_step selfSig rds rrsig) acc).2,
        rrsigCandidateSound selfSig rds rrsig k := by
  induction ks with
  | nil => intro acc h; simpa using h
  | cons d rest ih =>
    intro acc h
    exact ih _ (dnskey_set_step_sound selfSig rds rrsig acc d h)

/-- Claim C2: in `_populate_rrsig_status`, an RRSIGStatus is created for a
DNSKEY only if the DNSKEY has protocol 3, the RRSIG's algorithm equals the
DNSKEY's, and the RRSIG's key tag matches one of the DNSKEY's two derived
tags; and for a self-signature (covered RRset is DNSKEY owned by the signer)
only DNSKEYs whose rdata belongs to that RRset are used. -/
theorem c2_rrsig_candidate_keys (rrset_rdtype : RdType) (rrset_name : Name)
    (rrset_rdatas : List DNSKEYRdata) (rrsig : RRSIG) (dnskey_sets : List (List DNSKEYMeta))
    (k : DNSKEYMeta)
    (hk : k ∈ rrsig_status_created_keys (self_sig rrset_rdtype rrset_name rrsig)
      rrset_rdatas rrsig dnskey_sets) :
    k.rdata.protocol = 3 ∧ rrsig.algorithm = k.rdata.algorithm ∧
      (rrsig.key_tag = k.key_tag ∨ rrsig.key_tag = k.key_tag_no_revoke) ∧
      (self_sig rrset_rdtype rrset_name rrsig = true → k.rdata ∈ rrset_rdatas) := by
  have main :
      ∀ sets : List (List DNSKEYMeta), ∀ acc : List DNSKEYMeta × List DNSKEYMeta,
        (∀ k' ∈ acc.2, rrsigCandidateSound (self_sig rrset_rdtype rrset_name rrsig)
          rrset_rdatas rrsig k') →
        ∀ k' ∈ (sets.foldl (fun acc ks =>
            ks.foldl (dnskey_set_step (self_sig rrset_rdtype rrset_name rrsig)
              rrset_rdatas rrsig) acc) acc).2,
          rrsigCandidateSound (self_sig rrset_rdtype rrset_name rrsig) rrset_rdatas rrsig k' := by
    intro sets
    induction sets with
    | nil => intro acc h; simpa using h
    | cons ks rest ih =>
      intro acc h
      exact ih _ (dnskey_set_foldl_sound _ _ _ ks acc h)
  have := main dnskey_sets ([], []) (by intro k' h; simp at h) k hk
  exact this

/-- Witness for C2 at a concrete self-signature: the one applicable DNSKEY in
the covered RRset gets an RRSIGStatus and satisfies all conditions. -/
theorem c2_rrsig_candidate_keys_witness :
    (⟨⟨256, 3, 8, 1⟩, 111, 300⟩ : DNSKEYMeta) ∈
      rrsig_status_created_keys (self_sig RdType.DNSKEY "example." ⟨"example.", 8, 111⟩)
        [⟨256, 3, 8, 1⟩] ⟨"example.", 8, 111⟩ [[⟨⟨256, 3, 8, 1⟩, 111, 300⟩]] ∧
    ((⟨⟨256, 3, 8, 1⟩, 111, 300⟩ : DNSKEYMeta).rdata.protocol = 3 ∧
      (⟨"example.", 8, 111⟩ : RRSIG).algorithm =
        (⟨⟨256, 3, 8, 1⟩, 111, 300⟩ : DNSKEYMeta).rdata.algorithm ∧
      ((⟨"example.", 8, 111⟩ : RRSIG).key_tag = (⟨⟨256, 3, 8, 1⟩, 111, 300⟩ : DNSKEYMeta).key_tag ∨
        (⟨"example.", 8, 111⟩ : RRSIG).key_tag =
          (⟨⟨256, 3, 8, 1⟩, 111, 300⟩ : DNSKEYMeta).key_tag_no_revoke) ∧
      (self_sig RdType.DNSKEY "example." ⟨"example.", 8, 111⟩ = true →
        (⟨⟨256, 3, 8, 1⟩, 111, 300⟩ : DNSKEYMeta).rdata ∈ [(⟨256, 3, 8, 1⟩ : DNSKEYRdata)])) :=
  ⟨by decide,
    c2_rrsig_candidate_keys RdType.DNSKEY "example." [⟨256, 3, 8, 1⟩] ⟨"example.", 8, 111⟩
      [[⟨⟨256, 3, 8, 1⟩, 111, 300⟩]] ⟨⟨256, 3, 8, 1⟩, 111, 300⟩ (by decide)⟩

/-- Claim C4 counterexample: after populating an NA at level 3
(RDTYPES_SECURE_DELEGATION), re-entering `populate_status` at the stricter
level 4 — or at the broader level 0 — is a plain no-op returning the state
unchanged; no assertion exists or fires (like the source, which has no assert
statement, the only failure mode is the lines-969-974 KeyError, which this
input avoids by carrying its DS query entry). -/
theorem c4_strict_reentry_counterexample :
    (populate_status false false 3 naExample).bind (populate_status false false 4) =
      populate_status false false 3 naExample ∧
    (populate_status false false 3 naExample).bind (populate_status false false 0) =
      populate_status false false 3 naExample ∧
    (populate_status false false 3 naExample).isOk = true := ⟨rfl, rfl, rfl⟩

/-- Claim C4 as amended: once `rrsig_status` is set, any further
`populate_status` call (any level, any DLV flag) returns the state unchanged
(offline.py lines 257-258), and after any normally-returning call every
re-entry is a no-op — with no level assertion anywhere. -/
theorem c4_populate_status_idempotent (l1 l2 : Nat) (d1 d2 : Bool) (s : NAState) :
    (s.rrsig_status.isSome = true → populate_status false d1 l1 s = .ok s) ∧
    (∀ s1, populate_status false d1 l1 s = .ok s1 →
      populate_status false d2 l2 s1 = .ok s1) := by
  constructor
  · intro h
    simp [populate_status, h]
  · intro s1 h1
    by_cases h : s.rrsig_status.isSome = true
    · have hs : s1 = s := by
        simp [populate_status, h] at h1
        exact h1.symm
      subst hs
      simp [populate_status, h]
    · by_cases hstub : s.inputs.stub = true
      · have hs : s1 = s := by
          simp [populate_status, h, hstub] at h1
          exact h1.symm
        subst hs
        simp [populate_status, h, hstub]
      · unfold populate_status at h1
        rw [if_neg (by simp)] at h1
        rw [if_neg h] at h1
        rw [if_neg hstub] at h1
        split at h1
        · split at h1
          · split at h1
            · injection h1 with h1
              subst h1
              rfl
            · split at h1
              · exact Except.noConfusion h1
              · injection h1 with h1
                subst h1
                rfl
          · injection h1 with h1
            subst h1
            rfl
        · injection h1 with h1
          subst h1
          rfl

/-- Witness for C4's amended statement: a populated concrete NA is returned
unchanged by a level-2 re-entry. -/
theorem c4_populate_status_idempotent_witness :
    naExamplePopulated.rrsig_status.isSome = true ∧
    populate_status false false 2 naExamplePopulated = Except.ok naExamplePopulated :=
  ⟨rfl, (c4_populate_status_idempotent 2 0 false false naExamplePopulated).1 rfl⟩

/-- Claim C8 counterexample: a NODATA artifact at the NXDOMAIN's qname shares
witness (1, 1) with the NXDOMAIN, yet no InconsistentNXDOMAIN error is
attached, because the qname never entered `yxdomain` (its only NODATA
response is an upward referral), and offline.py line 1333 guards the whole
scan on `neg_response_info.qname in self.yxdomain`. -/
theorem c8_yxdomain_guard_counterexample :
    check_nxdomain_inconsistencies
        (_populate_name_status_yxdomain "example." none RdType.NS 0
          [⟨"w.example.", RdType.A, [],
              [⟨"w.example.", RdType.A, [((1, 1), [⟨false, true⟩])]⟩], [], false⟩,
           ⟨"w.example.", RdType.AAAA, [], [],
              [⟨"w.example.", RdType.AAAA, [((1, 1), [⟨false, false⟩])]⟩], false⟩])
        ⟨"w.example.", RdType.AAAA, [((1, 1), [⟨false, false⟩])]⟩ RdType.AAAA none
        [⟨"w.example.", RdType.A, [],
            [⟨"w.example.", RdType.A, [((1, 1), [⟨false, true⟩])]⟩], [], false⟩,
         ⟨"w.example.", RdType.AAAA, [], [],
            [⟨"w.example.", RdType.AAAA, [((1, 1), [⟨false, false⟩])]⟩], false⟩] = [] ∧
    sharedWitnesses [((1, 1), [⟨false, true⟩])] [((1, 1), [⟨false, false⟩])] = [(1, 1)] := by
  decide

/-- Claim C8 as amended: once the NXDOMAIN's qname is in `yxdomain` and the
NXDOMAIN's query rdtype is not DS/DLV, every answer RRset owned by the qname
and every NODATA entry at the qname in a non-DS/DLV query whose witnesses
intersect the NXDOMAIN's produces an InconsistentNXDOMAIN pair (attached to
the NXDOMAIN's warnings and to the artifact's warnings) carrying exactly the
shared witnesses' NXDOMAIN-side responses. -/
theorem c8_inconsistent_nxdomain (yx : List Name) (neg : NegInfo) (rdtype1 : RdType)
    (queries : List QueryAgg)
    (hyx : yx.contains neg.qname = true)
    (h1 : rdtype1 ≠ RdType.DS) (h2 : rdtype1 ≠ RdType.DLV) :
    (∀ q2 ∈ queries, q2.rdtype ≠ RdType.DS → q2.rdtype ≠ RdType.DLV →
      ∀ a ∈ q2.answer_info, a.rrsetName = neg.qname →
        sharedWitnesses a.servers_clients neg.servers_clients ≠ [] →
        (⟨ArtifactRef.answerRef q2.qname q2.rdtype a.rrsetName a.rrsetRdtype,
            attachFromNeg neg (sharedWitnesses a.servers_clients neg.servers_clients)⟩ :
          ScanHit) ∈ check_nxdomain_inconsistencies yx neg rdtype1 none queries) ∧
    (∀ q2 ∈ queries, q2.rdtype ≠ RdType.DS → q2.rdtype ≠ RdType.DLV →
      ∀ n2 ∈ q2.nodata_info, n2.qname = neg.qname →
        sharedWitnesses n2.servers_clients neg.servers_clients ≠ [] →
        (⟨ArtifactRef.nodataRef q2.qname q2.rdtype n2.qname n2.rdtype,
            attachFromNeg neg (sharedWitnesses n2.servers_clients neg.servers_clients)⟩ :
          ScanHit) ∈ check_nxdomain_inconsistencies yx neg rdtype1 none queries) := by
  have hguard : (yx.contains neg.qname && !(rdtype1 == RdType.DS || rdtype1 == RdType.DLV)) =
      true := by
    simp [h1, h2]
    simpa using hyx
  constructor
  · intro q2 hq2 hds hdlv a ha haname hshared
    unfold check_nxdomain_inconsistencies
    rw [if_pos hguard]
    apply List.mem_flatMap.mpr
    refine ⟨q2, hq2, ?_⟩
    unfold scanQueryForInconsistency
    rw [if_neg (by simp [hds, hdlv])]
    apply List.mem_append_left
    apply List.mem_filterMap.mpr
    refine ⟨a, List.mem_filter.mpr ⟨ha, by simp [haname]⟩, ?_⟩
    have hie : (sharedWitnesses a.servers_clients neg.servers_clients).isEmpty = false := by
      simpa [List.isEmpty_eq_false] using hshared
    simp only [hie, Bool.false_eq_true, if_false]
  · intro q2 hq2 hds hdlv n2 hn2 hname hshared
    unfold check_nxdomain_inconsistencies
    rw [if_pos hguard]
    apply List.mem_flatMap.mpr
    refine ⟨q2, hq2, ?_⟩
    unfold scanQueryForInconsistency
    rw [if_neg (by simp [hds, hdlv])]
    apply List.mem_append_right
    apply List.mem_filterMap.mpr
    refine ⟨n2, List.mem_filter.mpr ⟨hn2, by simp [hname]⟩, ?_⟩
    have hie : (sharedWitnesses n2.servers_clients neg.servers_clients).isEmpty = false := by
      simpa [List.isEmpty_eq_false] using hshared
    simp only [hie, Bool.false_eq_true, if_false]

/-- Witness for C8's amended statement: one shared witness between an A answer
and an AAAA NXDOMAIN at the same name yields the error pair. -/
theorem c8_inconsistent_nxdomain_witness :
    (["w.example."] : List Name).contains "w.example." = true ∧
    (⟨ArtifactRef.answerRef "w.example." RdType.A "w.example." RdType.A,
        attachFromNeg ⟨"w.example.", RdType.AAAA, [((1, 1), [⟨false, false⟩])]⟩
          (sharedWitnesses [((1, 1), [⟨false, false⟩])] [((1, 1), [⟨false, false⟩])])⟩ :
      ScanHit) ∈
      check_nxdomain_inconsistencies ["w.example."]
        ⟨"w.example.", RdType.AAAA, [((1, 1), [⟨false, false⟩])]⟩ RdType.AAAA none
        [⟨"w.example.", RdType.A,
            [⟨"w.example.", RdType.A, [((1, 1), [⟨false, false⟩])]⟩], [], [], false⟩] :=
  ⟨by decide,
    (c8_inconsistent_nxdomain ["w.example."]
        ⟨"w.example.", RdType.AAAA, [((1, 1), [⟨false, false⟩])]⟩ RdType.AAAA
        [⟨"w.example.", RdType.A,
            [⟨"w.example.", RdType.A, [((1, 1), [⟨false, false⟩])]⟩], [], [], false⟩]
        (by decide) (by decide) (by decide)).1
      ⟨"w.example.", RdType.A,
          [⟨"w.example.", RdType.A, [((1, 1), [⟨false, false⟩])]⟩], [], [], false⟩
      (by decide) (by decide) (by decide)
      ⟨"w.example.", RdType.A, [((1, 1), [⟨false, false⟩])]⟩
      (by decide) (by decide) (by decide)⟩

/-- The authority errors of offline.py lines 551-557 are never EDNS-related. -/
theorem authority_errors_not_edns (qop : Bool) (at1 : AnalysisType) (r : DNSResponse) :
    (authority_errors qop at1 r).filter isEdnsRelated = [] := by
  unfold authority_errors
  cases qop
  · rfl
  · cases at1
    · cases h : r.is_authoritative <;> simp [h, isEdnsRelated]
    · cases h : (r.recursion_desired && !r.recursion_available) <;> simp [h, isEdnsRelated]
    · rfl

/-- Claim C5: when the initial query used EDNS and the response did not, then
if the effective request still used EDNS exactly an EDNSIgnored error is
attributed, and if the effective request had EDNS disabled and
`responsive_cause_index` is absent, no EDNS-related error is reported. -/
theorem c5_edns_ignored_classification (z : ZoneOracle) (qop : Bool) (at1 : AnalysisType)
    (r : DNSResponse) (h1 : 0 ≤ r.query_edns) (h2 : r.message_edns < 0) :
    (0 ≤ r.effective_edns →
      ∃ w e, _populate_response_errors z qop at1 r = .ok (w, e) ∧
        (w ++ e).filter isEdnsRelated = [RespErr.ednsIgnored]) ∧
    (r.effective_edns < 0 → r.responsive_cause_index = none →
      ∃ w e, _populate_response_errors z qop at1 r = .ok (w, e) ∧
        (w ++ e).filter isEdnsRelated = []) := by
  constructor
  · intro h3
    have hphase : edns_error_phase z qop r = .ok (some .ednsIgnored, []) := by
      unfold edns_error_phase
      rw [if_pos h1, if_pos h2, if_neg (not_lt.mpr h3)]
      rfl
    by_cases hg : errGroupIsErrors .ednsIgnored qop z.zone_signed = true
    · refine ⟨[], [RespErr.ednsIgnored] ++ authority_errors qop at1 r, ?_, ?_⟩
      · unfold _populate_response_errors
        rw [hphase]
        simp [hg]
      · simp [List.filter_append, authority_errors_not_edns, isEdnsRelated]
    · refine ⟨[RespErr.ednsIgnored], authority_errors qop at1 r, ?_, ?_⟩
      · unfold _populate_response_errors
        rw [hphase]
        simp [hg]
      · simp [List.filter_append, authority_errors_not_edns, isEdnsRelated]
  · intro h3 h4
    have hc : classify_edns_err z qop r = none := by
      unfold classify_edns_err
      rw [h4]
    have hphase : edns_error_phase z qop r = .ok (none, []) := by
      unfold edns_error_phase
      rw [if_pos h1, if_pos h2, if_pos h3, hc, h4]
      rfl
    refine ⟨[], authority_errors qop at1 r, ?_, ?_⟩
    · unfold _populate_response_errors
      rw [hphase]
      rfl
    · simpa using authority_errors_not_edns qop at1 r

/-- Witness for C5: a stripped-EDNS response whose effective request still
used EDNS yields exactly an EDNSIgnored error. -/
theorem c5_edns_ignored_classification_witness :
    (0 : Int) ≤ 0 ∧ (-1 : Int) < 0 ∧
    (∃ w e, _populate_response_errors ⟨false, false, [], [], false⟩ true
        AnalysisType.authoritative
        ⟨0, -1, 0, none, RetryCause.unclassified, 0, 0, 512, 512, false, 0, true, false, false⟩ =
          .ok (w, e) ∧
      (w ++ e).filter isEdnsRelated = [RespErr.ednsIgnored]) :=
  ⟨by decide, by decide,
    (c5_edns_ignored_classification ⟨false, false, [], [], false⟩ true
      AnalysisType.authoritative
      ⟨0, -1, 0, none, RetryCause.unclassified, 0, 0, 512, 512, false, 0, true, false, false⟩
      (by decide) (by decide)).1 (by decide)⟩

/-- `classify_edns_err` returns nothing exactly when the retry index is absent
or the cause is one the source does not classify (the `else: pass` arm of
offline.py lines 449-452). -/
theorem classify_edns_err_eq_none (z : ZoneOracle) (qop : Bool) (r : DNSResponse) :
    classify_edns_err z qop r = none ↔
      (r.responsive_cause_index = none ∨ r.responsive_cause = RetryCause.unclassified) := by
  unfold classify_edns_err
  cases hrc : r.responsive_cause_index with
  | none => simp
  | some idx =>
    cases hc : r.responsive_cause <;> simp <;> split <;> simp

/-- Same for the per-flag classifier (offline.py lines 518-521). -/
theorem classify_edns_flag_err_eq_none (z : ZoneOracle) (qop : Bool) (r : DNSResponse)
    (f : Nat) :
    classify_edns_flag_err z qop r f = none ↔
      (r.responsive_cause_index = none ∨ r.responsive_cause = RetryCause.unclassified) := by
  unfold classify_edns_flag_err
  cases hrc : r.responsive_cause_index with
  | none => simp
  | some idx =>
    cases hc : r.responsive_cause <;> simp <;> split <;> simp

/-- With an absent retry index or an unclassified cause, the flag loop settles
on no error. -/
theorem edns_flag_loop_eq_none (z : ZoneOracle) (qop : Bool) (r : DNSResponse)
    (h : r.responsive_cause_index = none ∨ r.responsive_cause = RetryCause.unclassified) :
    ∀ is : List Nat, edns_flag_loop z qop r is = none := by
  intro is
  induction is with
  | nil => rfl
  | cons i rest ih =>
    unfold edns_flag_loop
    split
    · rw [(classify_edns_flag_err_eq_none z qop r _).mpr h]
      exact ih
    · exact ih

/-- With a present retry index, a classified cause and some differing flag bit
among the scanned indices, the flag loop settles on an error. -/
theorem edns_flag_loop_isSome (z : ZoneOracle) (qop : Bool) (r : DNSResponse) (k : Nat)
    (hrc : r.responsive_cause_index = some k)
    (hcu : r.responsive_cause ≠ RetryCause.unclassified) :
    ∀ is : List Nat,
      (∃ i ∈ is,
        r.query_edns_flags &&& (1 <<< i) ≠ r.effective_edns_flags &&& (1 <<< i)) →
      (edns_flag_loop z qop r is).isSome = true := by
  intro is
  induction is with
  | nil =>
    rintro ⟨i, hi, _⟩
    exact absurd hi (List.not_mem_nil i)
  | cons i rest ih =>
    rintro ⟨j, hj, hdiff⟩
    unfold edns_flag_loop
    by_cases hd : ((r.query_edns_flags &&& (1 <<< i)) != (r.effective_edns_flags &&& (1 <<< i))) = true
    · rw [if_pos hd]
      have hcl : classify_edns_flag_err z qop r (1 <<< i) ≠ none := by
        intro hnone
        rcases (classify_edns_flag_err_eq_none z qop r _).mp hnone with h | h
        · rw [hrc] at h
          exact Option.noConfusion h
        · exact hcu h
      cases hcls : classify_edns_flag_err z qop r (1 <<< i) with
      | none => exact absurd hcls hcl
      | some e => simp [hcls]
    · rw [if_neg hd]
      apply ih
      rcases List.mem_cons.mp hj with heq | hjr
      · subst heq
        have : r.query_edns_flags &&& (1 <<< j) = r.effective_edns_flags &&& (1 <<< j) := by
          simpa using hd
        exact absurd this hdiff
      · exact ⟨j, hjr, hdiff⟩

/-- Two different 16-bit values differ at some bit scanned by the flag loop. -/
theorem exists_differing_low_bit {a b : Nat} (hne : a ≠ b) (ha : a < 2 ^ 16)
    (hb : b < 2 ^ 16) :
    ∃ i ∈ (List.range 16).reverse, a &&& (1 <<< i) ≠ b &&& (1 <<< i) := by
  by_contra hcon
  push_neg at hcon
  apply hne
  apply Nat.eq_of_testBit_eq
  intro j
  by_cases hj : j < 16
  · have hjmem : j ∈ (List.range 16).reverse := by
      simp [List.mem_reverse, List.mem_range, hj]
    have h := hcon j hjmem
    rw [Nat.shiftLeft_eq, one_mul, Nat.and_two_pow, Nat.and_two_pow] at h
    have hpos : 0 < 2 ^ j := Nat.two_pow_pos j
    have htn := Nat.eq_of_mul_eq_mul_right hpos h
    cases h1 : a.testBit j <;> cases h2 : b.testBit j <;>
      simp [h1, h2] at htn ⊢
  · push_neg at hj
    have h1 : a.testBit j = false :=
      Nat.testBit_lt_two_pow (lt_of_lt_of_le ha (Nat.pow_le_pow_right (by norm_num) hj))
    have h2 : b.testBit j = false :=
      Nat.testBit_lt_two_pow (lt_of_lt_of_le hb (Nat.pow_le_pow_right (by norm_num) hj))
    rw [h1, h2]

/-- Claim C3 counterexample: a zone NA with a parent but no (name, DS) query
entry makes `_populate_ds_status` re-raise the KeyError of offline.py lines
969-974, which propagates through `_populate_delegation_status` and
`populate_status` (no handler in between) — so a raise other than the
unknown-EDNS-cause one is reachable. -/
theorem c3_keyerror_counterexample :
    _populate_ds_status_entry RdType.DS true none "example." true [("example.", RdType.A)] =
      Except.error PyExc.keyError := rfl

/-- Claim C3 as amended: the status-population path raises exactly (a) the
unknown-cause exceptions of offline.py lines 468/536 — which additionally
require an EDNS discrepancy: response without EDNS and effective EDNS
disabled, or response with EDNS and differing flags — and (b) the KeyError of
lines 969-974, reachable both through the DS arm (a zone NA with a parent
lacking its (name, DS) query entry) and through the DLV arm of lines 310-311
(a zone NA with a parent and a DLV parent lacking its (dlv_name, DLV) query
entry); the DLV arm instead raises the line-958 ValueError when dlv_name is
absent. -/
theorem c3_exception_characterization (z : ZoneOracle) (qop : Bool) (at1 : AnalysisType)
    (r : DNSResponse) (hqf : r.query_edns_flags < 2 ^ 16)
    (hef : r.effective_edns_flags < 2 ^ 16) (has_parent : Bool) (dlv : Option Name)
    (nm : Name) (is_zone : Bool) (queryKeys : List (Name × RdType)) :
    ((_populate_response_errors z qop at1 r).isOk = false ↔
      (0 ≤ r.query_edns ∧ r.responsive_cause_index.isSome = true ∧
        r.responsive_cause = RetryCause.unclassified ∧
        ((r.message_edns < 0 ∧ r.effective_edns < 0) ∨
          (0 ≤ r.message_edns ∧ r.query_edns_flags ≠ r.effective_edns_flags)))) ∧
    ((_populate_ds_status_entry RdType.DS has_parent dlv nm is_zone queryKeys).isOk = false ↔
      (has_parent = true ∧ is_zone = true ∧
        queryKeys.contains (nm, RdType.DS) = false)) ∧
    ((_populate_ds_status_entry RdType.DLV has_parent dlv nm is_zone queryKeys).isOk = false ↔
      (has_parent = true ∧ (dlv = none ∨
        ∃ d, dlv = some d ∧ is_zone = true ∧
          queryKeys.contains (d, RdType.DLV) = false))) := by
  refine ⟨?_, ?_, ?_⟩
  · have hiso : (_populate_response_errors z qop at1 r).isOk =
        (edns_error_phase z qop r).isOk := by
      unfold _populate_response_errors
      cases hph : edns_error_phase z qop r with
      | error e => rfl
      | ok p =>
        obtain ⟨err, pw⟩ := p
        rfl
    rw [hiso]
    unfold edns_error_phase
    by_cases hq : 0 ≤ r.query_edns
    case neg =>
      rw [if_neg hq]
      exact iff_of_false (fun hfalse => Bool.noConfusion hfalse) (fun h => hq h.1)
    case pos =>
      rw [if_pos hq]
      by_cases hm : r.message_edns < 0
      case pos =>
        rw [if_pos hm]
        by_cases he : r.effective_edns < 0
        case pos =>
          rw [if_pos he]
          cases hrc : r.responsive_cause_index with
          | none =>
            have hcl : classify_edns_err z qop r = none :=
              (classify_edns_err_eq_none z qop r).mpr (Or.inl hrc)
            rw [hcl]
            exact iff_of_false (fun hfalse => Bool.noConfusion hfalse)
              (fun h => by simp at h)
          | some k =>
            by_cases hcu : r.responsive_cause = RetryCause.unclassified
            case pos =>
              have hcl : classify_edns_err z qop r = none :=
                (classify_edns_err_eq_none z qop r).mpr (Or.inr hcu)
              rw [hcl]
              exact iff_of_true rfl ⟨hq, rfl, hcu, Or.inl ⟨hm, he⟩⟩
            case neg =>
              have hcl : classify_edns_err z qop r ≠ none := fun h => by
                rcases (classify_edns_err_eq_none z qop r).mp h with h1 | h1
                · rw [hrc] at h1
                  exact Option.noConfusion h1
                · exact hcu h1
              cases hcls : classify_edns_err z qop r with
              | none => exact absurd hcls hcl
              | some e =>
                exact iff_of_false (fun hfalse => Bool.noConfusion hfalse)
                  (fun h => hcu h.2.2.1)
        case neg =>
          rw [if_neg he]
          refine iff_of_false (fun hfalse => Bool.noConfusion hfalse) ?_
          intro h
          rcases h.2.2.2 with hc | hc
          · exact he hc.2
          · exact absurd hc.1 (not_le.mpr hm)
      case neg =>
        rw [if_neg hm]
        by_cases hf : (r.query_edns_flags != r.effective_edns_flags) = true
        case pos =>
          rw [if_pos hf]
          cases hrc : r.responsive_cause_index with
          | none =>
            have hloop := edns_flag_loop_eq_none z qop r (Or.inl hrc) (List.range 16).reverse
            rw [hloop]
            exact iff_of_false (fun hfalse => Bool.noConfusion hfalse)
              (fun h => by simp at h)
          | some k =>
            by_cases hcu : r.responsive_cause = RetryCause.unclassified
            case pos =>
              have hloop := edns_flag_loop_eq_none z qop r (Or.inr hcu) (List.range 16).reverse
              rw [hloop]
              exact iff_of_true rfl
                ⟨hq, rfl, hcu, Or.inr ⟨not_lt.mp hm, bne_iff_ne.mp hf⟩⟩
            case neg =>
              have hdiff := exists_differing_low_bit (bne_iff_ne.mp hf) hqf hef
              have hsome := edns_flag_loop_isSome z qop r k hrc hcu (List.range 16).reverse hdiff
              cases hcls : edns_flag_loop z qop r (List.range 16).reverse with
              | none =>
                rw [hcls] at hsome
                exact absurd hsome (by simp)
              | some e =>
                exact iff_of_false (fun hfalse => Bool.noConfusion hfalse)
                  (fun h => hcu h.2.2.1)
        case neg =>
          rw [if_neg hf]
          refine iff_of_false (fun hfalse => Bool.noConfusion hfalse) ?_
          intro h
          rcases h.2.2.2 with hc | hc
          · exact hm hc.1
          · have heq : r.query_edns_flags = r.effective_edns_flags := by simpa using hf
            exact hc.2 heq
  · cases has_parent
    · exact iff_of_false (fun hfalse => Bool.noConfusion hfalse)
        (fun h => Bool.noConfusion h.1)
    · by_cases hmem : (nm, RdType.DS) ∈ queryKeys
      · have hentry : _populate_ds_status_entry RdType.DS true dlv nm is_zone queryKeys =
            .ok true := by
          unfold _populate_ds_status_entry
          simp [List.contains, List.elem_eq_mem, hmem]
        rw [hentry]
        refine iff_of_false (fun hfalse => Bool.noConfusion hfalse) ?_
        intro h
        have hc : queryKeys.contains (nm, RdType.DS) = true := by
          simp [List.contains, List.elem_eq_mem, hmem]
        rw [hc] at h
        exact Bool.noConfusion h.2.2
      · have hc : queryKeys.contains (nm, RdType.DS) = false := by
          simp [List.contains, List.elem_eq_mem, hmem]
        cases is_zone
        · have hentry : _populate_ds_status_entry RdType.DS true dlv nm false queryKeys =
              .ok false := by
            unfold _populate_ds_status_entry
            simp [List.contains, List.elem_eq_mem, hmem]
          rw [hentry]
          exact iff_of_false (fun hfalse => Bool.noConfusion hfalse)
            (fun h => Bool.noConfusion h.2.1)
        · have hentry : _populate_ds_status_entry RdType.DS true dlv nm true queryKeys =
              .error .keyError := by
            unfold _populate_ds_status_entry
            simp [List.contains, List.elem_eq_mem, hmem]
          rw [hentry]
          exact iff_of_true rfl ⟨rfl, rfl, hc⟩
  · cases has_parent
    · exact iff_of_false (fun hfalse => Bool.noConfusion hfalse)
        (fun h => Bool.noConfusion h.1)
    · cases dlv with
      | none => exact iff_of_true rfl ⟨rfl, Or.inl rfl⟩
      | some d =>
        by_cases hmem : (d, RdType.DLV) ∈ queryKeys
        · have hentry : _populate_ds_status_entry RdType.DLV true (some d) nm is_zone
              queryKeys = .ok true := by
            unfold _populate_ds_status_entry
            simp [List.contains, List.elem_eq_mem, hmem]
          rw [hentry]
          refine iff_of_false (fun hfalse => Bool.noConfusion hfalse) ?_
          rintro ⟨_, hnone | ⟨d2, hd2, _, hcont⟩⟩
          · exact Option.noConfusion hnone
          · have hd : d2 = d := by
              injection hd2 with hd2
              exact hd2.symm
            subst hd
            have hc : queryKeys.contains (d2, RdType.DLV) = true := by
              simp [List.contains, List.elem_eq_mem, hmem]
            rw [hc] at hcont
            exact Bool.noConfusion hcont
        · have hc : queryKeys.contains (d, RdType.DLV) = false := by
            simp [List.contains, List.elem_eq_mem, hmem]
          cases is_zone
          · have hentry : _populate_ds_status_entry RdType.DLV true (some d) nm false
                queryKeys = .ok false := by
              unfold _populate_ds_status_entry
              simp [List.contains, List.elem_eq_mem, hmem]
            rw [hentry]
            refine iff_of_false (fun hfalse => Bool.noConfusion hfalse) ?_
            rintro ⟨_, hnone | ⟨d2, _, hz, _⟩⟩
            · exact Option.noConfusion hnone
            · exact Bool.noConfusion hz
          · have hentry : _populate_ds_status_entry RdType.DLV true (some d) nm true
                queryKeys = .error .keyError := by
              unfold _populate_ds_status_entry
              simp [List.contains, List.elem_eq_mem, hmem]
            rw [hentry]
            exact iff_of_true rfl ⟨rfl, Or.inr ⟨d, rfl, rfl, hc⟩⟩

/-- Witness for C3's amended statement: a stripped-and-disabled EDNS response
whose recorded retry cause is unclassified makes the classifier raise. -/
theorem c3_exception_characterization_witness :
    (_populate_response_errors ⟨false, false, [], [], false⟩ true AnalysisType.authoritative
      ⟨0, -1, -1, some 0, RetryCause.unclassified, 0, 0, 512, 512, false, 0, true, false,
        false⟩).isOk = false :=
  ((c3_exception_characterization ⟨false, false, [], [], false⟩ true
      AnalysisType.authoritative
      ⟨0, -1, -1, some 0, RetryCause.unclassified, 0, 0, 512, 512, false, 0, true, false, false⟩
      (by decide) (by decide) true none "example." true []).1).mpr
    ⟨by decide, rfl, rfl, Or.inl ⟨by decide, by decide⟩⟩
